import Mathlib

/-!
Shallow embedding of the conversion-result lifecycle of the allinoneconverter
server: `handleConversion` (server/src/services — conversion handler),
the Cloudinary storage client wrappers (`uploadToCloudinary`,
`downloadFromCloudinary`, `deleteFromCloudinary`,
`deleteMultipleFromCloudinary` in cloudinary.service.ts) and the
`optionalAuth` middleware.

External asynchronous collaborators (the storage provider's upload endpoint,
`fetch`, `cloudinary.uploader.destroy`, `jwt.verify`) are passed in as
oracles; per-call nondeterminism (distinct uuidv4 draws) is modelled by
indexing the upload oracle with the call number.  The deferred guest cleanup
(`setTimeout`) is returned as data: the scheduled delay in milliseconds and
the list of deletion calls the timer callback performs.
-/

namespace AllInOne

/-- Resource types accepted by the upload / download wrappers
(`"auto" | "image" | "raw"` in the source). -/
inductive UpResourceType
  | auto
  | image
  | raw
  deriving DecidableEq, Repr

/-- Resource types accepted by the delete wrappers
(`"image" | "raw" | "video"` in the source). -/
inductive DelResourceType
  | image
  | raw
  | video
  deriving DecidableEq, Repr

namespace Conversion

/-- `UploadResult` as consumed by `handleConversion` (pdf-renderer.service.ts
imports it from cloudinary.service.ts); here its fields are opaque strings
because the conversion handler only copies them into the response. -/
structure UploadResult where
  publicId : String
  url : String
  secureUrl : String
  downloadUrl : String
  format : String
  resourceType : String
  deriving DecidableEq, Repr

/-- `ProcessedFile` from pdf-renderer.service.ts: an output buffer, a display
filename and an optional mimetype. Bytes are modelled as a list of `Nat`. -/
structure ProcessedFile where
  buffer : List Nat
  filename : String
  mimetype : Option String
  deriving DecidableEq, Repr

/-- One record of the response payload (`{publicId, originalName, url, size}`). -/
structure FileRecord where
  publicId : String
  originalName : String
  url : String
  size : Nat
  deriving DecidableEq, Repr

/-- `ConversionResult` from pdf-renderer.service.ts: a message plus an optional
single `file` record or an optional `files` list. -/
structure ConversionResult where
  message : String
  file : Option FileRecord
  files : Option (List FileRecord)
  deriving DecidableEq, Repr

/-- The HTTP response sent by `handleConversion`: either `res.json(result)`
(status 200) or `res.status(s).json({message})`. -/
inductive HttpResponse
  | json (result : ConversionResult)
  | statusJson (status : Nat) (message : String)
  deriving DecidableEq, Repr

/-- One deletion call performed by the deferred cleanup callback:
`deleteFromCloudinary(publicId, resourceType)` or
`deleteMultipleFromCloudinary(publicIds)` (the latter is always invoked
without a resource-type argument in handleConversion, so it carries the
callee's default `raw`). -/
inductive DeleteCall
  | one (publicId : String) (resourceType : DelResourceType)
  | many (publicIds : List String) (resourceType : DelResourceType)
  deriving DecidableEq, Repr

/-- All identifiers submitted for deletion by one `DeleteCall`. -/
def DeleteCall.ids : DeleteCall → List String
  | DeleteCall.one pid _ => [pid]
  | DeleteCall.many pids _ => pids

/-- The deferred cleanup scheduled with `setTimeout`: the delay in
milliseconds and the deletion calls the callback performs, in order. -/
structure ScheduledCleanup where
  delayMs : Nat
  calls : List DeleteCall
  deriving DecidableEq, Repr

/-- All identifiers submitted for deletion by a scheduled cleanup. -/
def ScheduledCleanup.ids (c : ScheduledCleanup) : List String :=
  (c.calls.map DeleteCall.ids).flatten

/-- The external upload collaborator: call number (distinct uuidv4 draws /
distinct in-flight uploads), buffer, folder, resource type; resolves with an
`UploadResult` or rejects with an error. -/
abbrev UploadOracle :=
  Nat → List Nat → String → UpResourceType → Except String UploadResult

/-- Resource-type classification in handleConversion:
`file.mimetype?.startsWith("image/") ? "image" : "raw"` (an absent mimetype
is falsy, hence `raw`). -/
def resourceTypeFor (f : ProcessedFile) : UpResourceType :=
  match f.mimetype with
  | some m => if m.startsWith "image/" then UpResourceType.image else UpResourceType.raw
  | none => UpResourceType.raw

/-- Storage folder selected from the auth state:
`isAuthenticated ? "allinone-pdf/outputs" : "allinone-pdf/temp"`. -/
def conversionFolder (isAuthenticated : Bool) : String :=
  if isAuthenticated then "allinone-pdf/outputs" else "allinone-pdf/temp"

/-- `Promise.all` over already-issued upload promises: resolves with the list
of results iff every promise resolved, rejects if any rejected. -/
def promiseAll {α : Type} : List (Except String α) → Except String (List α)
  | [] => Except.ok []
  | Except.error e :: _ => Except.error e
  | Except.ok a :: xs =>
    match promiseAll xs with
    | Except.error e => Except.error e
    | Except.ok rest => Except.ok (a :: rest)

/-- The uploads issued by the multi-file branch
(`processedFile.map(file => uploadToCloudinary(file.buffer, folder, resourceType))`),
with the call number made explicit (call `k + i` for the `i`-th file). -/
def uploadCalls (upload : UploadOracle) (folder : String) :
    Nat → List ProcessedFile → List (Except String UploadResult)
  | _, [] => []
  | k, f :: fs =>
    upload k f.buffer folder (resourceTypeFor f) :: uploadCalls upload folder (k + 1) fs

/-- `handleConversion` from pdf-renderer.service.ts.  Arguments: the upload
oracle, `!!req.user`, the `ProcessedFile | ProcessedFile[]` union
(`Array.isArray` discriminates) and `inputPublicIds` (source default `[]`).
Returns the HTTP response together with the deferred cleanup scheduled for
guest users (`none` when no `setTimeout` was issued). -/
def handleConversion (upload : UploadOracle) (isAuthenticated : Bool)
    (processedFile : Sum ProcessedFile (List ProcessedFile))
    (inputPublicIds : List String) :
    HttpResponse × Option ScheduledCleanup :=
  let folder := conversionFolder isAuthenticated
  match processedFile with
  | Sum.inl file =>
    let resourceType := resourceTypeFor file
    match upload 0 file.buffer folder resourceType with
    | Except.error _ =>
      (HttpResponse.statusJson 500 "Conversion failed", none)
    | Except.ok uploadResult =>
      let result : ConversionResult :=
        { message := "Conversion successful"
          file := some
            { publicId := uploadResult.publicId
              originalName := file.filename
              url := uploadResult.downloadUrl
              size := file.buffer.length }
          files := none }
      let cleanup : Option ScheduledCleanup :=
        if isAuthenticated then none
        else some
          { delayMs := 5 * 60 * 1000
            calls :=
              DeleteCall.one uploadResult.publicId
                  (if resourceType = UpResourceType.image then DelResourceType.image
                   else DelResourceType.raw)
                :: (if inputPublicIds.length > 0
                    then [DeleteCall.many inputPublicIds DelResourceType.raw]
                    else []) }
      (HttpResponse.json result, cleanup)
  | Sum.inr files =>
    match promiseAll (uploadCalls upload folder 0 files) with
    | Except.error _ =>
      (HttpResponse.statusJson 500 "Conversion failed", none)
    | Except.ok uploadResults =>
      let fileRecords := List.zipWith
        (fun (f : ProcessedFile) (r : UploadResult) =>
          ({ publicId := r.publicId
             originalName := f.filename
             url := r.downloadUrl
             size := f.buffer.length } : FileRecord))
        files uploadResults
      let result : ConversionResult :=
        { message := "Conversion successful"
          file := none
          files := some fileRecords }
      let cleanup : Option ScheduledCleanup :=
        if isAuthenticated then none
        else some
          { delayMs := 5 * 60 * 1000
            calls :=
              [DeleteCall.many
                (uploadResults.map UploadResult.publicId ++ inputPublicIds)
                DelResourceType.raw] }
      (HttpResponse.json result, cleanup)

/-- The list of output identifiers a request produced: the single upload's
`publicId`, or the `publicId`s of all parallel uploads in input order. -/
def requestOutputIds (upload : UploadOracle) (isAuthenticated : Bool)
    (processedFile : Sum ProcessedFile (List ProcessedFile))
    (outIds : List String) : Prop :=
  match processedFile with
  | Sum.inl f =>
    ∃ ur, upload 0 f.buffer (conversionFolder isAuthenticated) (resourceTypeFor f) =
        Except.ok ur ∧ outIds = [ur.publicId]
  | Sum.inr files =>
    ∃ rs, promiseAll (uploadCalls upload (conversionFolder isAuthenticated) 0 files) =
        Except.ok rs ∧ outIds = rs.map UploadResult.publicId

end Conversion

namespace Storage

/-- The value a `fetch` promise resolves with, restricted to the fields the
source reads: `response.ok` (2xx indicator), `response.statusText` and the
body bytes (`response.arrayBuffer()`). -/
structure FetchResponse where
  ok : Bool
  statusText : String
  body : List Nat
  deriving DecidableEq, Repr

/-- A Cloudinary delivery URL as produced by `cloudinary.url(publicId, opts)`,
kept structured instead of string-encoded: the resource type, the public id
the URL addresses, and the `secure` / `sign_url` options. -/
structure CloudUrl where
  resourceType : UpResourceType
  publicId : String
  secure : Bool
  signUrl : Bool
  deriving DecidableEq, Repr

/-- The fields of the provider's upload-callback `result` that the source
reads: `public_id`, `url`, `secure_url`, `format`, `resource_type`. -/
structure UploadApiResult where
  public_id : String
  url : String
  secure_url : String
  format : Option String
  resource_type : UpResourceType
  deriving DecidableEq, Repr

/-- Modelled from the spec: the state of the external object-storage provider
(spec §4.2 "Storage Client", §3 "StoredObject") — a keyed store of byte
objects, keyed by resource class and delivery identifier. -/
structure CloudStore where
  objects : List ((UpResourceType × String) × List Nat)
  deriving DecidableEq, Repr

/-- Look up the stored bytes for a resource class and delivery identifier. -/
def CloudStore.lookup (s : CloudStore) (rt : UpResourceType) (pid : String) :
    Option (List Nat) :=
  Option.map Prod.snd (s.objects.find? (fun e => decide (e.1 = (rt, pid))))

/-- Modelled from the spec: the provider's `uploader.upload_stream` endpoint
(external collaborator, spec §4.2).  It persists the buffer under the
delivery identifier implied by the options — `folder ++ "/" ++ public_id`,
with the `format` extension appended for `raw` uploads, which is exactly the
delivery behaviour the source's comments assume ("For raw files, append the
format to the public_id") — and reports the assigned `public_id` and
`format` in the callback result. -/
def uploadStream (s : CloudStore) (folder : String) (resourceType : UpResourceType)
    (freshId : String) (format : Option String) (buffer : List Nat) :
    CloudStore × UploadApiResult :=
  let pid := folder ++ "/" ++ freshId
  let deliveryId :=
    match format with
    | some f =>
      if resourceType = UpResourceType.raw then pid ++ "." ++ f else pid
    | none => pid
  (CloudStore.mk (((resourceType, deliveryId), buffer) :: s.objects),
   { public_id := pid
     url := pid
     secure_url := pid
     format := format
     resource_type := resourceType })

/-- Modelled from the spec: retrieval of a stored object by delivery URL.
`raw` (generic binary) objects require a signed URL (spec §4.2: providers
refuse to serve non-image binaries without one); `image` objects may be
served unsigned; an absent object yields a non-2xx response. -/
def CloudStore.fetch (s : CloudStore) (u : CloudUrl) : FetchResponse :=
  match s.lookup u.resourceType u.publicId with
  | some data =>
    if u.resourceType = UpResourceType.raw ∧ u.signUrl = false then
      { ok := false, statusText := "Unauthorized", body := [] }
    else
      { ok := true, statusText := "OK", body := data }
  | none => { ok := false, statusText := "Not Found", body := [] }

/-- `UploadResult` as built by `uploadToCloudinary` in cloudinary.service.ts;
`downloadUrl` is the signed URL generated with
`cloudinary.url(publicIdWithFormat, {resource_type, type, secure, sign_url})`. -/
structure UploadResult where
  publicId : String
  url : String
  secureUrl : String
  downloadUrl : CloudUrl
  format : Option String
  resourceType : UpResourceType
  deriving DecidableEq, Repr

/-- `uploadToCloudinary` from cloudinary.service.ts over the modelled
provider.  `freshId` is the `uuidv4()` draw.  Source defaults:
`folder = "allinone-pdf"`, `resourceType = "raw"`.  The upload options set
`format: "pdf"` exactly when the resource type is `raw`; on success the
returned `publicId` is `result.public_id` with `result.format` appended
when the resource type is `raw` and a format is reported
("Include format in publicId for consistent downloads"). -/
def uploadToCloudinary (s : CloudStore) (freshId : String) (buffer : List Nat)
    (folder : String) (resourceType : UpResourceType) :
    CloudStore × UploadResult :=
  let format : Option String :=
    if resourceType = UpResourceType.raw then some "pdf" else none
  let r := uploadStream s folder resourceType freshId format buffer
  let result := r.2
  let publicIdWithFormat :=
    if resourceType = UpResourceType.raw then
      match result.format with
      | some f => result.public_id ++ "." ++ f
      | none => result.public_id
    else result.public_id
  let signedUrl : CloudUrl :=
    { resourceType := resourceType
      publicId := publicIdWithFormat
      secure := true
      signUrl := true }
  (r.1,
   { publicId := publicIdWithFormat
     url := result.url
     secureUrl := result.secure_url
     downloadUrl := signedUrl
     format := result.format
     resourceType := result.resource_type })

/-- `downloadFromCloudinary` from cloudinary.service.ts, over an arbitrary
`fetch` collaborator.  Source default: `resourceType = "raw"`.  It derives a
URL from the public id alone with `cloudinary.url(publicId, {resource_type,
secure: true, sign_url: true})`, performs one fetch, returns the body bytes
when `response.ok` and throws otherwise.  The second component is the trace
of URLs fetched during the call. -/
def downloadFromCloudinary (fetch : CloudUrl → FetchResponse) (publicId : String)
    (resourceType : UpResourceType) :
    Except String (List Nat) × List CloudUrl :=
  let url : CloudUrl :=
    { resourceType := resourceType
      publicId := publicId
      secure := true
      signUrl := true }
  let response := fetch url
  ((if response.ok then Except.ok response.body
    else Except.error ("Failed to download file from Cloudinary: " ++ response.statusText)),
   [url])

/-- The external `cloudinary.uploader.destroy` collaborator: may reject. -/
abbrev DestroyOracle := String → DelResourceType → Except String Unit

/-- `deleteFromCloudinary` from cloudinary.service.ts: awaits `destroy`
inside try/catch — a rejection is logged and absorbed, never rethrown.
Source default: `resourceType = "raw"`.  The second component is the trace
of destroy invocations issued. -/
def deleteFromCloudinary (destroy : DestroyOracle) (publicId : String)
    (resourceType : DelResourceType) :
    Except String Unit × List (String × DelResourceType) :=
  ((match destroy publicId resourceType with
    | Except.ok _ => Except.ok ()
    | Except.error _ => Except.ok ()),
   [(publicId, resourceType)])

/-- `deleteMultipleFromCloudinary` from cloudinary.service.ts:
`Promise.all(publicIds.map(id => deleteFromCloudinary(id, resourceType)))`
inside try/catch.  Source default: `resourceType = "raw"`.  The second
component is the concatenated trace of destroy invocations. -/
def deleteMultipleFromCloudinary (destroy : DestroyOracle) (publicIds : List String)
    (resourceType : DelResourceType) :
    Except String Unit × List (String × DelResourceType) :=
  let results := publicIds.map (fun id => deleteFromCloudinary destroy id resourceType)
  ((match Conversion.promiseAll (results.map Prod.fst) with
    | Except.ok _ => Except.ok ()
    | Except.error _ => Except.ok ()),
   (results.map Prod.snd).flatten)

end Storage

namespace Auth

/-- The decoded JWT payload (`{id, email, role}`). -/
structure UserPayload where
  id : String
  email : String
  role : String
  deriving DecidableEq, Repr

/-- The request state the middleware reads and writes: the `Authorization`
header and `req.user`. -/
structure AuthReq where
  authorization : Option String
  user : Option UserPayload
  deriving DecidableEq, Repr

/-- What a middleware does with the request: pass the (possibly updated)
request to `next()`, or answer with `res.status(s).json({message})`. -/
inductive MiddlewareResult
  | next (req : AuthReq)
  | reject (status : Nat) (message : String)
  deriving DecidableEq, Repr

/-- The external `jwt.verify(token, JWT_SECRET)` collaborator: decodes or
throws. -/
abbrev VerifyOracle := String → Except String UserPayload

/-- JS `s.split(" ")` over the character list (core's `String.splitOn` is
byte-position based and does not reduce in the kernel). -/
def splitOnSpaceChars : List Char → List (List Char)
  | [] => [[]]
  | c :: cs =>
    if c = ' ' then [] :: splitOnSpaceChars cs
    else
      match splitOnSpaceChars cs with
      | [] => [[c]]
      | w :: ws => (c :: w) :: ws

/-- JS `s.startsWith(p)`, evaluably modelled over the character list. -/
def strStartsWith (s p : String) : Bool :=
  decide (s.toList.take p.toList.length = p.toList)

/-- Token extraction in the middleware: `authHeader.split(" ")[1]` (the
header is known to start with `"Bearer "`, so index 1 exists; an absent
element is modelled as the empty token, which the verifier rejects like
`jwt.verify(undefined)`). -/
def bearerToken (h : String) : String :=
  ((splitOnSpaceChars h.toList).map List.asString).getD 1 ""

/-- `optionalAuth` from the upload routes: if a `Bearer` authorization header
is present, try to verify the token — success sets `req.user`, failure
clears it ("Invalid token, but we allow guest access") — and in every case
call `next()`; no response is ever sent. -/
def optionalAuth (verify : VerifyOracle) (req : AuthReq) : MiddlewareResult :=
  let req1 :=
    match req.authorization with
    | some h =>
      if strStartsWith h "Bearer " then
        match verify (bearerToken h) with
        | Except.ok decoded => { req with user := some decoded }
        | Except.error _ => { req with user := none }
      else req
    | none => req
  MiddlewareResult.next req1

end Auth

/-! Concrete collaborator instances and request fixtures used to instantiate
the theorems below on closed inputs. -/

/-- A deterministic upload result for call number `i`. -/
def sampleUploadResult (i : Nat) : Conversion.UploadResult :=
  { publicId := "allinone-pdf/temp/out" ++ toString i
    url := "http://res/" ++ toString i
    secureUrl := "https://res/" ++ toString i
    downloadUrl := "https://signed/" ++ toString i
    format := "pdf"
    resourceType := "raw" }

/-- An upload collaborator whose every call resolves. -/
def sampleUpload : Conversion.UploadOracle :=
  fun i _ _ _ => Except.ok (sampleUploadResult i)

/-- An upload collaborator whose every call rejects. -/
def failingUpload : Conversion.UploadOracle :=
  fun _ _ _ _ => Except.error "Upload failed"

/-- An upload collaborator whose second call (index 1) rejects. -/
def secondFailsUpload : Conversion.UploadOracle :=
  fun i _ _ _ =>
    if i = 1 then Except.error "Upload failed" else Except.ok (sampleUploadResult i)

/-- A generic-binary output file. -/
def samplePdf : Conversion.ProcessedFile :=
  { buffer := [37, 80, 68, 70], filename := "out.pdf", mimetype := some "application/pdf" }

/-- An image output file. -/
def samplePng : Conversion.ProcessedFile :=
  { buffer := [137, 80], filename := "page-1.png", mimetype := some "image/png" }

/-- A token verifier accepting exactly the token `"validtoken"`. -/
def sampleVerify : Auth.VerifyOracle :=
  fun t =>
    if t = "validtoken" then Except.ok { id := "u1", email := "a@b.c", role := "user" }
    else Except.error "jwt malformed"

/-- A fetch collaborator that always answers 200 with body `[1, 2, 3]`. -/
def okFetch : Storage.CloudUrl → Storage.FetchResponse :=
  fun _ => { ok := true, statusText := "OK", body := [1, 2, 3] }

/-- A fetch collaborator that always answers non-2xx. -/
def badFetch : Storage.CloudUrl → Storage.FetchResponse :=
  fun _ => { ok := false, statusText := "Not Found", body := [] }

/-- A destroy collaborator that always rejects, as on an already-deleted or
nonexistent identifier. -/
def rejectingDestroy : Storage.DestroyOracle :=
  fun _ _ => Except.error "not found"

/-! Helper lemmas about `promiseAll`, `uploadCalls` and list access. -/

namespace Conversion

theorem promiseAll_ok_length {α : Type} :
    ∀ {l : List (Except String α)} {rs : List α},
      promiseAll l = Except.ok rs → rs.length = l.length := by
  intro l
  induction l with
  | nil =>
    intro rs h
    simp [promiseAll] at h
    simp [h]
  | cons x xs ih =>
    intro rs h
    cases x with
    | error e => simp [promiseAll] at h
    | ok a =>
      cases hp : promiseAll xs with
      | error e => rw [promiseAll, hp] at h; exact absurd h (by simp)
      | ok rest =>
        rw [promiseAll, hp] at h
        cases h
        simp [ih hp]

theorem promiseAll_ok_get {α : Type} :
    ∀ {l : List (Except String α)} {rs : List α},
      promiseAll l = Except.ok rs →
      ∀ (i : Nat) (x : Except String α), l[i]? = some x →
        ∃ r, rs[i]? = some r ∧ x = Except.ok r := by
  intro l
  induction l with
  | nil =>
    intro rs _ i x hx
    simp at hx
  | cons y ys ih =>
    intro rs h i x hx
    cases y with
    | error e => simp [promiseAll] at h
    | ok a =>
      cases hp : promiseAll ys with
      | error e => rw [promiseAll, hp] at h; exact absurd h (by simp)
      | ok rest =>
        rw [promiseAll, hp] at h
        cases h
        cases i with
        | zero =>
          simp at hx
          exact ⟨a, by simp, by simp [hx]⟩
        | succ j =>
          simp at hx
          obtain ⟨r, hr, hxr⟩ := ih hp j x hx
          exact ⟨r, by simpa using hr, hxr⟩

theorem promiseAll_error_of_get {α : Type} :
    ∀ (l : List (Except String α)) (i : Nat) (e : String),
      l[i]? = some (Except.error e) →
      ∃ e2, promiseAll l = Except.error e2 := by
  intro l
  induction l with
  | nil => intro i e h; simp at h
  | cons x xs ih =>
    intro i e h
    cases i with
    | zero =>
      simp at h
      exact ⟨e, by simp [h, promiseAll]⟩
    | succ j =>
      simp at h
      obtain ⟨e2, he2⟩ := ih j e h
      cases x with
      | error e3 => exact ⟨e3, by simp [promiseAll]⟩
      | ok a => exact ⟨e2, by simp [promiseAll, he2]⟩

theorem uploadCalls_length (upload : UploadOracle) (folder : String) :
    ∀ (files : List ProcessedFile) (k : Nat),
      (uploadCalls upload folder k files).length = files.length := by
  intro files
  induction files with
  | nil => intro k; simp [uploadCalls]
  | cons f fs ih => intro k; simp [uploadCalls, ih]

theorem uploadCalls_getElem (upload : UploadOracle) (folder : String) :
    ∀ (files : List ProcessedFile) (k i : Nat),
      (uploadCalls upload folder k files)[i]? =
        (files[i]?).map
          (fun f => upload (k + i) f.buffer folder (resourceTypeFor f)) := by
  intro files
  induction files with
  | nil => intro k i; simp [uploadCalls]
  | cons f fs ih =>
    intro k i
    cases i with
    | zero => simp [uploadCalls]
    | succ j =>
      simp only [uploadCalls, List.getElem?_cons_succ]
      rw [ih (k + 1) j]
      have h2 : k + 1 + j = k + (j + 1) := by omega
      rw [h2]

theorem zipWith_getElem {α β γ : Type} (f : α → β → γ) :
    ∀ (l1 : List α) (l2 : List β) (i : Nat),
      (List.zipWith f l1 l2)[i]? =
        match l1[i]?, l2[i]? with
        | some a, some b => some (f a b)
        | _, _ => none := by
  intro l1
  induction l1 with
  | nil => intro l2 i; cases l2 <;> cases i <;> simp
  | cons a l1 ih =>
    intro l2 i
    cases l2 with
    | nil => cases i <;> simp
    | cons b l2 =>
      cases i with
      | zero => simp
      | succ j => simpa using ih l2 j

end Conversion

namespace Storage

theorem deleteMultipleFromCloudinary_trace (destroy : DestroyOracle) :
    ∀ (publicIds : List String) (rt : DelResourceType),
      (deleteMultipleFromCloudinary destroy publicIds rt).2 =
        publicIds.map (fun pid => (pid, rt)) := by
  intro publicIds rt
  induction publicIds with
  | nil => simp [deleteMultipleFromCloudinary]
  | cons p ps ih =>
    simp only [deleteMultipleFromCloudinary, List.map_cons, List.flatten] at ih ⊢
    simp [deleteFromCloudinary] at ih ⊢
    exact ih

end Storage

open Conversion Storage Auth

/-! Theorems settling the claims. -/

/-- Claim C4: for every call to `handleConversion` with a single
`ProcessedFile` input whose upload succeeds, the response contains exactly
one `file` record (the file's filename as `originalName`, the upload's
`publicId` and signed download URL as `url`, and `size` equal to the
buffer's byte length) and never a `files` list. -/
theorem handleConversion_single_file_shape
    (upload : UploadOracle) (isAuthenticated : Bool) (f : ProcessedFile)
    (inputPublicIds : List String) (ur : Conversion.UploadResult)
    (h : upload 0 f.buffer (conversionFolder isAuthenticated) (resourceTypeFor f) =
      Except.ok ur) :
    (handleConversion upload isAuthenticated (Sum.inl f) inputPublicIds).1 =
      HttpResponse.json
        { message := "Conversion successful"
          file := some
            { publicId := ur.publicId
              originalName := f.filename
              url := ur.downloadUrl
              size := f.buffer.length }
          files := none } := by
  simp [handleConversion, h]

/-- Claim C4 witness: a guest request with one generic-binary file and a
succeeding upload produces exactly the single-`file` response. -/
theorem handleConversion_single_file_shape_witness :
    (handleConversion sampleUpload false (Sum.inl samplePdf) []).1 =
      HttpResponse.json
        { message := "Conversion successful"
          file := some
            { publicId := (sampleUploadResult 0).publicId
              originalName := samplePdf.filename
              url := (sampleUploadResult 0).downloadUrl
              size := samplePdf.buffer.length }
          files := none } :=
  handleConversion_single_file_shape sampleUpload false samplePdf [] (sampleUploadResult 0) rfl

/-- Claim C9: the response shape is determined by `Array.isArray`, not by the
number of outputs — a list containing exactly one `ProcessedFile` whose
upload succeeds yields a `files` list of length 1 and no `file` record. -/
theorem handleConversion_singleton_list_files_shape
    (upload : UploadOracle) (isAuthenticated : Bool) (f : ProcessedFile)
    (inputPublicIds : List String) (r : ConversionResult)
    (h : (handleConversion upload isAuthenticated (Sum.inr [f]) inputPublicIds).1 =
      HttpResponse.json r) :
    ∃ rec, r.files = some [rec] ∧ r.file = none := by
  cases hu : upload 0 f.buffer (conversionFolder isAuthenticated) (resourceTypeFor f) with
  | error e =>
    simp [handleConversion, uploadCalls, promiseAll, hu] at h
  | ok ur =>
    simp [handleConversion, uploadCalls, promiseAll, hu] at h
    refine ⟨{ publicId := ur.publicId, originalName := f.filename,
              url := ur.downloadUrl, size := f.buffer.length }, ?_, ?_⟩ <;>
      simp [← h]

/-- Claim C9 witness: a singleton list arrives in the `files` shape. -/
theorem handleConversion_singleton_list_files_shape_witness :
    ∃ rec,
      ({ message := "Conversion successful"
         file := none
         files := some [{ publicId := (sampleUploadResult 0).publicId
                          originalName := samplePng.filename
                          url := (sampleUploadResult 0).downloadUrl
                          size := samplePng.buffer.length }] } : ConversionResult).files =
        some [rec] ∧
      ({ message := "Conversion successful"
         file := none
         files := some [{ publicId := (sampleUploadResult 0).publicId
                          originalName := samplePng.filename
                          url := (sampleUploadResult 0).downloadUrl
                          size := samplePng.buffer.length }] } : ConversionResult).file = none :=
  handleConversion_singleton_list_files_shape sampleUpload false samplePng [] _ (by decide)

/-- Claim C2: if any storage upload fails — the single upload, or any one of
the N parallel uploads — the whole request fails with the single generic
payload `500 {message: "Conversion failed"}`: no `file` record, no `files`
entries, and no cleanup scheduled. -/
theorem handleConversion_upload_failure_500
    (upload : UploadOracle) (isAuthenticated : Bool) (inputPublicIds : List String) :
    (∀ (f : ProcessedFile) (e : String),
      upload 0 f.buffer (conversionFolder isAuthenticated) (resourceTypeFor f) =
        Except.error e →
      handleConversion upload isAuthenticated (Sum.inl f) inputPublicIds =
        (HttpResponse.statusJson 500 "Conversion failed", none))
    ∧ (∀ (files : List ProcessedFile) (i : Nat) (f : ProcessedFile) (e : String),
      files[i]? = some f →
      upload i f.buffer (conversionFolder isAuthenticated) (resourceTypeFor f) =
        Except.error e →
      handleConversion upload isAuthenticated (Sum.inr files) inputPublicIds =
        (HttpResponse.statusJson 500 "Conversion failed", none)) := by
  constructor
  · intro f e he
    simp [handleConversion, he]
  · intro files i f e hf he
    have hc : (uploadCalls upload (conversionFolder isAuthenticated) 0 files)[i]? =
        some (Except.error e) := by
      rw [uploadCalls_getElem]
      simp [hf, he]
    obtain ⟨e2, he2⟩ := promiseAll_error_of_get _ i e hc
    simp [handleConversion, he2]

/-- Claim C2 witness: two parallel uploads of which the second rejects make
the whole two-file request answer the generic 500 payload. -/
theorem handleConversion_upload_failure_500_witness :
    handleConversion secondFailsUpload false (Sum.inr [samplePdf, samplePng]) [] =
      (HttpResponse.statusJson 500 "Conversion failed", none) :=
  (handleConversion_upload_failure_500 secondFailsUpload false []).2
    [samplePdf, samplePng] 1 samplePng "Upload failed" rfl rfl

/-- Claim C3: a multi-file request (N ≥ 2) whose uploads all succeed answers
a `files` list with exactly N entries, order preserved: the i-th entry takes
its `originalName` from the i-th `ProcessedFile`, its `publicId` and `url`
from the i-th upload result, and its `size` from the i-th buffer's length. -/
theorem handleConversion_multi_files_order
    (upload : UploadOracle) (isAuthenticated : Bool) (files : List ProcessedFile)
    (inputPublicIds : List String) (r : ConversionResult)
    (_hN : 2 ≤ files.length)
    (h : (handleConversion upload isAuthenticated (Sum.inr files) inputPublicIds).1 =
      HttpResponse.json r) :
    ∃ recs, r.files = some recs ∧ recs.length = files.length ∧
      ∀ i, i < files.length →
        ∃ f ur, files[i]? = some f ∧
          upload i f.buffer (conversionFolder isAuthenticated) (resourceTypeFor f) =
            Except.ok ur ∧
          recs[i]? = some { publicId := ur.publicId, originalName := f.filename,
                            url := ur.downloadUrl, size := f.buffer.length } := by
  cases hp : promiseAll (uploadCalls upload (conversionFolder isAuthenticated) 0 files) with
  | error e => simp [handleConversion, hp] at h
  | ok rs =>
    have hlen : rs.length = files.length := by
      have h2 := promiseAll_ok_length hp
      rwa [uploadCalls_length] at h2
    simp [handleConversion, hp] at h
    refine ⟨List.zipWith
      (fun (f : ProcessedFile) (u2 : Conversion.UploadResult) =>
        ({ publicId := u2.publicId, originalName := f.filename,
           url := u2.downloadUrl, size := f.buffer.length } : FileRecord))
      files rs, ?_, ?_, ?_⟩
    · simp [← h]
    · simp [hlen]
    · intro i hi
      obtain ⟨f, hf⟩ : ∃ f, files[i]? = some f := ⟨_, List.getElem?_eq_getElem hi⟩
      have hcall : (uploadCalls upload (conversionFolder isAuthenticated) 0 files)[i]? =
          some (upload i f.buffer (conversionFolder isAuthenticated) (resourceTypeFor f)) := by
        rw [uploadCalls_getElem]
        simp [hf]
      obtain ⟨ur, hur, hx⟩ := promiseAll_ok_get hp i _ hcall
      refine ⟨f, ur, hf, hx, ?_⟩
      rw [zipWith_getElem]
      simp [hf, hur]

/-- Claim C3 witness: a two-file request with succeeding uploads produces the
two order-preserving `files` entries. -/
theorem handleConversion_multi_files_order_witness :
    ∃ recs,
      ({ message := "Conversion successful"
         file := none
         files := some
           [{ publicId := (sampleUploadResult 0).publicId
              originalName := samplePdf.filename
              url := (sampleUploadResult 0).downloadUrl
              size := samplePdf.buffer.length },
            { publicId := (sampleUploadResult 1).publicId
              originalName := samplePng.filename
              url := (sampleUploadResult 1).downloadUrl
              size := samplePng.buffer.length }] } : ConversionResult).files = some recs ∧
      recs.length = ([samplePdf, samplePng] : List ProcessedFile).length ∧
      ∀ i, i < ([samplePdf, samplePng] : List ProcessedFile).length →
        ∃ f ur, ([samplePdf, samplePng] : List ProcessedFile)[i]? = some f ∧
          sampleUpload i f.buffer (conversionFolder false) (resourceTypeFor f) =
            Except.ok ur ∧
          recs[i]? = some { publicId := ur.publicId, originalName := f.filename,
                            url := ur.downloadUrl, size := f.buffer.length } :=
  handleConversion_multi_files_order sampleUpload false [samplePdf, samplePng] [] _
    (by decide) (by decide)

/-- Claim C1: for authenticated requests no deletion is ever scheduled; for
guest requests that respond successfully, a deferred cleanup with a fixed
5-minute (300000 ms) delay is scheduled whose submitted identifiers are
exactly the output identifiers produced by the request followed by every
input identifier passed in. -/
theorem handleConversion_cleanup_policy
    (upload : UploadOracle) (processedFile : Sum ProcessedFile (List ProcessedFile))
    (inputPublicIds : List String) (r : ConversionResult) :
    ((handleConversion upload true processedFile inputPublicIds).2 = none)
    ∧ ((handleConversion upload false processedFile inputPublicIds).1 =
        HttpResponse.json r →
      ∃ c outIds,
        (handleConversion upload false processedFile inputPublicIds).2 = some c ∧
        c.delayMs = 5 * 60 * 1000 ∧
        ScheduledCleanup.ids c = outIds ++ inputPublicIds ∧
        requestOutputIds upload false processedFile outIds) := by
  constructor
  · cases processedFile with
    | inl f =>
      cases hu : upload 0 f.buffer (conversionFolder true) (resourceTypeFor f) with
      | error e => simp [handleConversion, hu]
      | ok ur => simp [handleConversion, hu]
    | inr files =>
      cases hp : promiseAll (uploadCalls upload (conversionFolder true) 0 files) with
      | error e => simp [handleConversion, hp]
      | ok rs => simp [handleConversion, hp]
  · intro h
    cases processedFile with
    | inl f =>
      cases hu : upload 0 f.buffer (conversionFolder false) (resourceTypeFor f) with
      | error e => simp [handleConversion, hu] at h
      | ok ur =>
        refine ⟨{ delayMs := 5 * 60 * 1000
                  calls := DeleteCall.one ur.publicId
                      (if resourceTypeFor f = UpResourceType.image then DelResourceType.image
                       else DelResourceType.raw)
                    :: (if inputPublicIds.length > 0
                        then [DeleteCall.many inputPublicIds DelResourceType.raw]
                        else []) },
                [ur.publicId], ?_, rfl, ?_, ?_⟩
        · simp [handleConversion, hu]
        · by_cases hin : inputPublicIds.length > 0
          · simp [ScheduledCleanup.ids, DeleteCall.ids, hin]
          · have hnil : inputPublicIds = [] := List.length_eq_zero.mp (by omega)
            simp [ScheduledCleanup.ids, DeleteCall.ids, hin, hnil]
        · exact ⟨ur, hu, rfl⟩
    | inr files =>
      cases hp : promiseAll (uploadCalls upload (conversionFolder false) 0 files) with
      | error e => simp [handleConversion, hp] at h
      | ok rs =>
        refine ⟨{ delayMs := 5 * 60 * 1000
                  calls := [DeleteCall.many
                    (rs.map Conversion.UploadResult.publicId ++ inputPublicIds)
                    DelResourceType.raw] },
                rs.map Conversion.UploadResult.publicId, ?_, rfl, ?_, ?_⟩
        · simp [handleConversion, hp]
        · simp [ScheduledCleanup.ids, DeleteCall.ids]
        · exact ⟨rs, hp, rfl⟩

/-- Claim C1 witness: a successful guest single-file request with one input
identifier schedules a 5-minute cleanup over the output id and the input id;
the same request authenticated schedules nothing. -/
theorem handleConversion_cleanup_policy_witness :
    ((handleConversion sampleUpload true (Sum.inl samplePdf) ["in1"]).2 = none)
    ∧ (∃ c outIds,
      (handleConversion sampleUpload false (Sum.inl samplePdf) ["in1"]).2 = some c ∧
      c.delayMs = 5 * 60 * 1000 ∧
      ScheduledCleanup.ids c = outIds ++ ["in1"] ∧
      requestOutputIds sampleUpload false (Sum.inl samplePdf) outIds) :=
  ⟨(handleConversion_cleanup_policy sampleUpload (Sum.inl samplePdf) ["in1"]
      { message := "Conversion successful"
        file := some { publicId := (sampleUploadResult 0).publicId
                       originalName := samplePdf.filename
                       url := (sampleUploadResult 0).downloadUrl
                       size := samplePdf.buffer.length }
        files := none }).1,
   (handleConversion_cleanup_policy sampleUpload (Sum.inl samplePdf) ["in1"]
      { message := "Conversion successful"
        file := some { publicId := (sampleUploadResult 0).publicId
                       originalName := samplePdf.filename
                       url := (sampleUploadResult 0).downloadUrl
                       size := samplePdf.buffer.length }
        files := none }).2 rfl⟩

/-- Claim C10: a successful guest multi-file request schedules one
`deleteMultipleFromCloudinary` call over all output identifiers (whatever
resource class each was uploaded with) plus all input identifiers, without a
resource-class argument — so every identifier in the batch is destroyed
under the callee's default class `raw`. -/
theorem handleConversion_multi_cleanup_default_raw
    (upload : UploadOracle) (files : List ProcessedFile)
    (inputPublicIds : List String) (r : ConversionResult)
    (h : (handleConversion upload false (Sum.inr files) inputPublicIds).1 =
      HttpResponse.json r) :
    ∃ rs, promiseAll (uploadCalls upload (conversionFolder false) 0 files) =
        Except.ok rs ∧
      (handleConversion upload false (Sum.inr files) inputPublicIds).2 =
        some { delayMs := 5 * 60 * 1000
               calls := [DeleteCall.many
                 (rs.map Conversion.UploadResult.publicId ++ inputPublicIds)
                 DelResourceType.raw] } ∧
      ∀ destroy : DestroyOracle,
        (deleteMultipleFromCloudinary destroy
          (rs.map Conversion.UploadResult.publicId ++ inputPublicIds)
          DelResourceType.raw).2 =
        (rs.map Conversion.UploadResult.publicId ++ inputPublicIds).map
          (fun pid => (pid, DelResourceType.raw)) := by
  cases hp : promiseAll (uploadCalls upload (conversionFolder false) 0 files) with
  | error e => simp [handleConversion, hp] at h
  | ok rs =>
    refine ⟨rs, rfl, ?_, ?_⟩
    · simp [handleConversion, hp]
    · intro destroy
      exact deleteMultipleFromCloudinary_trace destroy _ _

/-- Claim C10 witness: a guest request producing one `raw` and one `image`
output plus one input identifier has all three identifiers destroyed under
the default class `raw`. -/
theorem handleConversion_multi_cleanup_default_raw_witness :
    ∃ rs, promiseAll (uploadCalls sampleUpload (conversionFolder false) 0
        [samplePdf, samplePng]) = Except.ok rs ∧
      (handleConversion sampleUpload false (Sum.inr [samplePdf, samplePng]) ["in1"]).2 =
        some { delayMs := 5 * 60 * 1000
               calls := [DeleteCall.many
                 (rs.map Conversion.UploadResult.publicId ++ ["in1"])
                 DelResourceType.raw] } ∧
      ∀ destroy : DestroyOracle,
        (deleteMultipleFromCloudinary destroy
          (rs.map Conversion.UploadResult.publicId ++ ["in1"]) DelResourceType.raw).2 =
        (rs.map Conversion.UploadResult.publicId ++ ["in1"]).map
          (fun pid => (pid, DelResourceType.raw)) :=
  handleConversion_multi_cleanup_default_raw sampleUpload [samplePdf, samplePng] ["in1"]
    { message := "Conversion successful"
      file := none
      files := some
        [{ publicId := (sampleUploadResult 0).publicId
           originalName := samplePdf.filename
           url := (sampleUploadResult 0).downloadUrl
           size := samplePdf.buffer.length },
         { publicId := (sampleUploadResult 1).publicId
           originalName := samplePng.filename
           url := (sampleUploadResult 1).downloadUrl
           size := samplePng.buffer.length }] }
    (by decide)

/-- Claim C5: uploading a buffer with `uploadToCloudinary` and then
downloading via the returned `publicId` with `downloadFromCloudinary` (both
at their default resource type `raw`) yields byte-identical content, for
every prior store state, fresh identifier and folder.  The download derives
a fresh signed URL from the identifier alone — its statement never touches
the upload's returned `downloadUrl`, so expiry of that original URL is
immaterial. -/
theorem upload_download_roundtrip (s : CloudStore) (freshId : String)
    (buffer : List Nat) (folder : String) :
    (downloadFromCloudinary
      (CloudStore.fetch
        (uploadToCloudinary s freshId buffer folder UpResourceType.raw).1)
      (uploadToCloudinary s freshId buffer folder UpResourceType.raw).2.publicId
      UpResourceType.raw).1 = Except.ok buffer := by
  simp [downloadFromCloudinary, uploadToCloudinary, uploadStream,
        CloudStore.fetch, CloudStore.lookup, List.find?]

/-- Claim C6: `deleteFromCloudinary` and `deleteMultipleFromCloudinary`
never raise, whatever the destroy collaborator answers — including a
rejection for an already-deleted or nonexistent identifier: the catch blocks
absorb every failure. -/
theorem delete_never_raises (destroy : DestroyOracle) (publicId : String)
    (publicIds : List String) (rt : DelResourceType) :
    (deleteFromCloudinary destroy publicId rt).1 = Except.ok ()
    ∧ (deleteMultipleFromCloudinary destroy publicIds rt).1 = Except.ok () := by
  constructor
  · cases hd : destroy publicId rt <;> simp [deleteFromCloudinary, hd]
  · show (match promiseAll ((publicIds.map
        (fun id => deleteFromCloudinary destroy id rt)).map Prod.fst) with
      | Except.ok _ => Except.ok ()
      | Except.error _ => Except.ok ()) = Except.ok ()
    cases promiseAll ((publicIds.map
        (fun id => deleteFromCloudinary destroy id rt)).map Prod.fst) <;> rfl

/-- Claim C7: `downloadFromCloudinary` derives a fresh signed secure URL from
the identifier alone (it takes no URL input), performs exactly one fetch —
the trace is that single derived URL — returns the fetched body exactly when
the response is 2xx, and raises exactly when it is not. -/
theorem downloadFromCloudinary_single_fetch
    (fetch : CloudUrl → FetchResponse) (publicId : String) (rt : UpResourceType) :
    (downloadFromCloudinary fetch publicId rt).2 =
      [{ resourceType := rt, publicId := publicId, secure := true, signUrl := true }]
    ∧ ((fetch { resourceType := rt, publicId := publicId,
                secure := true, signUrl := true }).ok = true →
      (downloadFromCloudinary fetch publicId rt).1 =
        Except.ok (fetch { resourceType := rt, publicId := publicId,
                           secure := true, signUrl := true }).body)
    ∧ ((fetch { resourceType := rt, publicId := publicId,
                secure := true, signUrl := true }).ok = false →
      (downloadFromCloudinary fetch publicId rt).1 =
        Except.error ("Failed to download file from Cloudinary: " ++
          (fetch { resourceType := rt, publicId := publicId,
                   secure := true, signUrl := true }).statusText)) := by
  refine ⟨rfl, ?_, ?_⟩ <;> intro hok <;> simp [downloadFromCloudinary, hok]

/-- Claim C7 witness: a 2xx fetch returns its body, a non-2xx fetch raises. -/
theorem downloadFromCloudinary_single_fetch_witness :
    (downloadFromCloudinary okFetch "allinone-pdf/temp/x.pdf" UpResourceType.raw).1 =
      Except.ok [1, 2, 3]
    ∧ (downloadFromCloudinary badFetch "allinone-pdf/temp/x.pdf" UpResourceType.raw).1 =
      Except.error "Failed to download file from Cloudinary: Not Found" :=
  ⟨(downloadFromCloudinary_single_fetch okFetch "allinone-pdf/temp/x.pdf"
      UpResourceType.raw).2.1 rfl,
   (downloadFromCloudinary_single_fetch badFetch "allinone-pdf/temp/x.pdf"
      UpResourceType.raw).2.2 rfl⟩

/-- Claim C8: `optionalAuth` always calls `next()`; an absent or invalid
bearer token leaves `req.user` unset so the request proceeds as a guest, and
the request ends up authenticated only when a bearer header is present whose
token the verifier accepts. -/
theorem optionalAuth_guest_degrade (verify : VerifyOracle) (req : AuthReq)
    (hu : req.user = none) :
    (∃ r1, optionalAuth verify req = MiddlewareResult.next r1)
    ∧ (∀ h e, req.authorization = some h → strStartsWith h "Bearer " = true →
        verify (bearerToken h) = Except.error e →
        optionalAuth verify req =
          MiddlewareResult.next { authorization := some h, user := none })
    ∧ (∀ h u, req.authorization = some h → strStartsWith h "Bearer " = true →
        verify (bearerToken h) = Except.ok u →
        optionalAuth verify req =
          MiddlewareResult.next { authorization := some h, user := some u })
    ∧ (∀ r1 u, optionalAuth verify req = MiddlewareResult.next r1 →
        r1.user = some u →
        ∃ h, req.authorization = some h ∧ strStartsWith h "Bearer " = true ∧
          verify (bearerToken h) = Except.ok u) := by
  refine ⟨⟨_, rfl⟩, ?_, ?_, ?_⟩
  · intro h e hh hb hv
    simp [optionalAuth, hh, hb, hv]
  · intro h u hh hb hv
    simp [optionalAuth, hh, hb, hv]
  · intro r1 u hr hu1
    cases hh : req.authorization with
    | none =>
      simp [optionalAuth, hh] at hr
      rw [← hr] at hu1
      rw [hu] at hu1
      exact absurd hu1 (by simp)
    | some h =>
      by_cases hb : strStartsWith h "Bearer " = true
      · cases hv : verify (bearerToken h) with
        | error e =>
          simp [optionalAuth, hh, hb, hv] at hr
          rw [← hr] at hu1
          exact absurd hu1 (by simp)
        | ok decoded =>
          simp [optionalAuth, hh, hb, hv] at hr
          rw [← hr] at hu1
          simp at hu1
          exact ⟨h, rfl, hb, by rw [hv, hu1]⟩
      · simp [optionalAuth, hh, hb] at hr
        rw [← hr] at hu1
        rw [hu] at hu1
        exact absurd hu1 (by simp)

/-- Claim C8 witness: with a verifier accepting exactly `"validtoken"`, a
request carrying an invalid bearer token proceeds as a guest with `user`
unset, and one carrying the valid token proceeds authenticated. -/
theorem optionalAuth_guest_degrade_witness :
    optionalAuth sampleVerify { authorization := some "Bearer forged", user := none } =
      MiddlewareResult.next { authorization := some "Bearer forged", user := none }
    ∧ optionalAuth sampleVerify { authorization := some "Bearer validtoken", user := none } =
      MiddlewareResult.next
        { authorization := some "Bearer validtoken"
          user := some { id := "u1", email := "a@b.c", role := "user" } } :=
  ⟨(optionalAuth_guest_degrade sampleVerify
      { authorization := some "Bearer forged", user := none } rfl).2.1
      "Bearer forged" "jwt malformed" rfl (by decide) rfl,
   (optionalAuth_guest_degrade sampleVerify
      { authorization := some "Bearer validtoken", user := none } rfl).2.2.1
      "Bearer validtoken" { id := "u1", email := "a@b.c", role := "user" }
      rfl (by decide) rfl⟩

end AllInOne
